import Mathlib

/-! PYQ Analyzer client (`frontend/src/App.jsx`)

A shallow embedding of the `App` component: its five `useState` cells, the
event handlers `handleFileChange`, `removeFile`, `handleAnalyze`,
`handleReset`, and the parts of the render function that decide what is shown
(view switch on `result`, error element, submit button, question list).

JavaScript values that reach the component from outside (the response body,
the error body) are kept as untyped JSON-like values, because the component
never validates them.
-/

namespace PYQ

/-! ## JavaScript values -/

/-- A JavaScript value as the component can receive it from `axios`: the
parsed JSON of a body, or `undefined`/`null`. Numbers are kept as integers;
the component only ever tests a number for being zero (truthiness). An object
is the list of its own properties. -/
inductive JsVal where
  | undefined : JsVal
  | null : JsVal
  | bool (b : Bool) : JsVal
  | num (n : Int) : JsVal
  | str (s : String) : JsVal
  | arr (items : List JsVal) : JsVal
  | obj (props : List (String × JsVal)) : JsVal

namespace JsVal

/-- JavaScript truthiness (`!v`, `v && _`, `v || _`). -/
def truthy : JsVal → Bool
  | undefined => false
  | null => false
  | bool b => b
  | num n => n != 0
  | str s => s != ""
  | arr _ => true
  | obj _ => true

/-- First binding of `key` in a property list. -/
def lookupProp (key : String) : List (String × JsVal) → JsVal
  | [] => undefined
  | (k, v) :: rest => if k = key then v else lookupProp key rest

/-- Optional chaining `v?.key` for a key that no primitive wrapper or array
defines (here `error`, `priority`): `undefined` on a nullish value and on
every value that is not an object carrying the property. -/
def optProp (v : JsVal) (key : String) : JsVal :=
  match v with
  | obj props => lookupProp key props
  | _ => undefined

/-- The expression `a || b`. -/
def orElse (a b : JsVal) : JsVal :=
  if a.truthy then a else b

/-- The expression `v === s` for a string `s`. -/
def strictEqStr (v : JsVal) (s : String) : Bool :=
  match v with
  | str t => t = s
  | _ => false

/-- The value is a string of positive length. -/
def isNonEmptyString : JsVal → Bool
  | str s => s != ""
  | _ => false

end JsVal

open JsVal

/-! ## Component state -/

/-- A `File` of the file input: the fields the component reads (`name`,
`type`) and its bytes. -/
structure File where
  name : String
  type : String
  content : List Nat
  deriving DecidableEq, Repr

/-- The five `useState` cells of `App`. -/
structure State where
  files : List File
  loading : Bool
  result : JsVal
  error : JsVal
  filter : String

/-- Initial values of the `useState` calls. -/
def State.init : State :=
  { files := [], loading := false, result := JsVal.null, error := JsVal.null, filter := "All" }

/-! ## Event handlers -/

/-- The function `handleFileChange`, applied to `Array.from(e.target.files)`. -/
def handleFileChange (selectedFiles : List File) (s : State) : State :=
  let pdfFiles := selectedFiles.filter (fun f => f.type = "application/pdf")
  if pdfFiles.length = 0 then
    { s with error := str "Please select only PDF files" }
  else
    { s with files := pdfFiles, error := JsVal.null }

/-- Worker of `filterWithIndex`: `i` is the index of the head of the list. -/
def filterWithIndexFrom {α : Type} (p : α → Nat → Bool) (i : Nat) : List α → List α
  | [] => []
  | x :: rest =>
    if p x i then x :: filterWithIndexFrom p (i + 1) rest
    else filterWithIndexFrom p (i + 1) rest

/-- The method `Array.prototype.filter` with a callback that also reads the
index of the element. -/
def filterWithIndex {α : Type} (p : α → Nat → Bool) (xs : List α) : List α :=
  filterWithIndexFrom p 0 xs

/-- The function `removeFile`. -/
def removeFile (index : Nat) (s : State) : State :=
  { s with files := filterWithIndex (fun _ i => i != index) s.files }

/-- The constant `API_URL`. -/
def API_URL : String := "http://localhost:8000/api/analyze/"

/-- One `axios.post(API_URL, formData, ...)` call: the target and the entries
appended to the `FormData`, in order. -/
structure Request where
  url : String
  formData : List (String × File)
  deriving DecidableEq, Repr

/-- The `response` of a rejected request, of which the handler reads `data`. -/
structure ErrorResponse where
  status : Nat
  data : JsVal

/-- The value caught by `catch (err)`: `response` is absent (`undefined`) when
the request got no answer. -/
structure AxiosError where
  response : Option ErrorResponse

/-- How the awaited `axios.post` settles: it resolves with a response whose
`data` is the parsed body, or it rejects. -/
inductive Outcome where
  | resolved (data : JsVal) : Outcome
  | rejected (err : AxiosError) : Outcome

/-- The expression `err.response?.data?.error`. -/
def errorField (err : AxiosError) : JsVal :=
  match err.response with
  | none => JsVal.undefined
  | some response => optProp response.data "error"

/-- The fallback message of the `catch` block. -/
def genericFailure : String := "Failed to analyze papers. Is Django running?"

/-- The part of `handleAnalyze` that runs before the `await`: the guard on an
empty selection, `setLoading(true)`, `setError(null)`, the `FormData` built by
`files.forEach`, and the request that is issued (none when the guard
returns). -/
def handleAnalyzeBegin (s : State) : State × Option Request :=
  if s.files.length = 0 then
    ({ s with error := str "Please upload at least one PDF file" }, none)
  else
    let formData := s.files.map (fun file => ("papers", file))
    ({ s with loading := true, error := JsVal.null }, some { url := API_URL, formData := formData })

/-- The part of `handleAnalyze` that runs once the awaited request settles:
the rest of the `try` block or the `catch` block, then `finally`. -/
def handleAnalyzeSettle (o : Outcome) (s : State) : State :=
  let s1 : State :=
    match o with
    | Outcome.resolved data => { s with result := data }
    | Outcome.rejected err => { s with error := orElse (errorField err) (str genericFailure) }
  { s1 with loading := false }

/-- A whole run of `handleAnalyze` with no other event in between; `post` is
the answer of the service to the request. Returns the final state and the
requests that were issued. -/
def handleAnalyze (post : Request → Outcome) (s : State) : State × List Request :=
  match handleAnalyzeBegin s with
  | (s1, none) => (s1, [])
  | (s1, some req) => (handleAnalyzeSettle (post req) s1, [req])

/-- The function `handleReset`. -/
def handleReset (s : State) : State :=
  { s with files := [], result := JsVal.null, error := JsVal.null }

/-- The `onClick` of a filter button: `setFilter(priority)`. -/
def setFilter (priority : String) (s : State) : State :=
  { s with filter := priority }

/-! ## Render -/

/-- The view switch `!result ? upload section : results section`. -/
def showsUploadView (s : State) : Bool :=
  !s.result.truthy

/-- The `disabled` attribute of the submit button. -/
def submitDisabled (s : State) : Bool :=
  s.loading || s.files.length == 0

mutual
/-- The text React shows for a value used as a child `{v}`: a string or a
number is shown as text, a boolean, `null` or `undefined` shows nothing, an
array shows its items one after the other, and a plain object is rejected
(React throws "Objects are not valid as a React child"): `none`. -/
def childText : JsVal → Option String
  | JsVal.undefined => some ""
  | JsVal.null => some ""
  | JsVal.bool _ => some ""
  | JsVal.num n => some (toString n)
  | JsVal.str s => some s
  | JsVal.arr items => childrenText items
  | JsVal.obj _ => none
/-- The text of a list of children; `none` as soon as one of them is
rejected. -/
def childrenText : List JsVal → Option String
  | [] => some ""
  | v :: rest =>
    match childText v, childrenText rest with
    | some t, some ts => some (t ++ ts)
    | _, _ => none
end

/-- What a JSX child position holds once rendered. -/
inductive Child where
  | nothing : Child
  | text (t : String) : Child
  | element (t : String) : Child
  deriving DecidableEq, Repr

/-- The child `error && <div style={styles.error}>{error}</div>` of the upload
section. A truthy `error` gives the error element with the text of `{error}`,
or `none` when React throws on that child (the render fails and the root is
unmounted). A falsy `error` is itself the child: the number `0` is shown as
text, everything else shows nothing. -/
def errorElement (s : State) : Option Child :=
  if s.error.truthy then
    match childText s.error with
    | some t => some (Child.element t)
    | none => none
  else
    match s.error with
    | JsVal.num n => some (Child.text (toString n))
    | _ => some Child.nothing

/-- The upload section as rendered, reduced to what depends on the state: the
names listed under "Selected Files" (the list is rendered only when it is not
empty), the error child, the `disabled` attribute of the submit button and
whether the loading note is shown. -/
structure UploadView where
  listedFiles : List String
  error : Child
  submitDisabled : Bool
  loadingNote : Bool
  deriving DecidableEq, Repr

/-- The upload branch of the `return` of `App` (rendered when `!result`);
`none` when React throws while rendering it. -/
def uploadSection (s : State) : Option UploadView :=
  match errorElement s with
  | none => none
  | some child =>
    some { listedFiles := s.files.map (fun file => file.name), error := child,
           submitDisabled := submitDisabled s, loadingNote := s.loading }

/-- One occurrence of a question in a paper. -/
structure Variant where
  source : String
  text : String
  deriving DecidableEq, Repr

/-- One entry of `result.ranked_questions`, with the fields the component
reads. -/
structure RankedQuestion where
  representative : String
  priority : String
  count : Int
  variants : List Variant
  deriving DecidableEq, Repr

/-- The props of one `<QuestionCard key question rank />` element. -/
structure CardProps where
  key : Nat
  question : RankedQuestion
  rank : Nat
  deriving DecidableEq, Repr

/-- Worker of `mapWithIndex`: `i` is the index of the head of the list. -/
def mapWithIndexFrom {α β : Type} (f : α → Nat → β) (i : Nat) : List α → List β
  | [] => []
  | x :: rest => f x i :: mapWithIndexFrom f (i + 1) rest

/-- The method `Array.prototype.map` with a callback that also reads the
index. -/
def mapWithIndex {α β : Type} (f : α → Nat → β) (xs : List α) : List β :=
  mapWithIndexFrom f 0 xs

/-- The children of the question list: `result.ranked_questions` filtered by
the current `filter`, then mapped to cards. -/
def questionList (ranked_questions : List RankedQuestion) (filter : String) : List CardProps :=
  mapWithIndex (fun question index => { key := index, question := question, rank := index + 1 })
    (ranked_questions.filter (fun q => filter = "All" || q.priority = filter))

/-! ## The component as a transition system

React runs one handler at a time and re-renders before the next event, so a
user event sees the state left by the previous one. The only suspension point
is the `await` in `handleAnalyze`: the handler is split there, and the
requests that were issued and have not settled yet are tracked next to the
state. -/

/-- The component state together with the requests in flight. -/
structure Sys where
  ui : State
  outstanding : List Request

/-- The freshly mounted component. -/
def Sys.init : Sys :=
  { ui := State.init, outstanding := [] }

/-- The events that drive the component. -/
inductive Event where
  | pickFiles (selectedFiles : List File) : Event
  | clickRemove (index : Nat) : Event
  | clickAnalyze : Event
  | settle (i : Nat) (o : Outcome) : Event
  | clickFilter (priority : String) : Event
  | clickReset : Event

/-- Whether the event can happen: the control it uses is rendered (upload or
results section), the submit button is not disabled, the request that settles
is in flight. -/
def Event.enabled : Event → Sys → Bool
  | Event.pickFiles _, sys => showsUploadView sys.ui
  | Event.clickRemove index, sys => showsUploadView sys.ui && decide (index < sys.ui.files.length)
  | Event.clickAnalyze, sys => showsUploadView sys.ui && !submitDisabled sys.ui
  | Event.settle i _, sys => decide (i < sys.outstanding.length)
  | Event.clickFilter priority, sys =>
    !showsUploadView sys.ui && decide (priority ∈ ["All", "High", "Medium", "Low"])
  | Event.clickReset, sys => !showsUploadView sys.ui

/-- The effect of an event. -/
def Event.apply : Event → Sys → Sys
  | Event.pickFiles selectedFiles, sys => { sys with ui := handleFileChange selectedFiles sys.ui }
  | Event.clickRemove index, sys => { sys with ui := removeFile index sys.ui }
  | Event.clickAnalyze, sys =>
    { ui := (handleAnalyzeBegin sys.ui).1,
      outstanding := sys.outstanding ++ (handleAnalyzeBegin sys.ui).2.toList }
  | Event.settle i o, sys =>
    { ui := handleAnalyzeSettle o sys.ui, outstanding := sys.outstanding.eraseIdx i }
  | Event.clickFilter priority, sys => { sys with ui := setFilter priority sys.ui }
  | Event.clickReset, sys => { sys with ui := handleReset sys.ui }

/-- The states the component can be in. -/
inductive Reachable : Sys → Prop where
  | init : Reachable Sys.init
  | step (e : Event) (sys : Sys) (before : Reachable sys) (can : e.enabled sys = true) :
      Reachable (e.apply sys)

/-! ## Sample inputs -/

/-- A picked list of a text file and two PDFs. -/
def samplePicked : List File :=
  [ { name := "notes.txt", type := "text/plain", content := [1] },
    { name := "2021.pdf", type := "application/pdf", content := [2] },
    { name := "2022.pdf", type := "application/pdf", content := [3] } ]

/-- A state with a prior selection and a prior error. -/
def sampleState : State :=
  { files := [{ name := "old.pdf", type := "application/pdf", content := [] }],
    loading := false, result := JsVal.null, error := str "Please select only PDF files",
    filter := "All" }

/-- A picked list without any PDF. -/
def sampleNoPdf : List File :=
  [ { name := "notes.txt", type := "text/plain", content := [1] },
    { name := "scan.png", type := "image/png", content := [2] } ]

/-- A selection of three files. -/
def sampleThree : State :=
  { files := [ { name := "a.pdf", type := "application/pdf", content := [1] },
               { name := "b.pdf", type := "application/pdf", content := [2] },
               { name := "c.pdf", type := "application/pdf", content := [3] } ],
    loading := false, result := JsVal.null, error := JsVal.null, filter := "All" }

/-- A ranked list with two `High` entries separated by a `Low` and a `Medium`
one. -/
def sampleRanked : List RankedQuestion :=
  [ { representative := "Define entropy", priority := "High", count := 3,
      variants := [⟨"2021", "Define entropy."⟩, ⟨"2022", "What is entropy?"⟩,
                   ⟨"2023", "Define the term entropy"⟩] },
    { representative := "State Ohm law", priority := "Low", count := 1,
      variants := [⟨"2021", "State Ohm law"⟩] },
    { representative := "Explain paging", priority := "Medium", count := 2,
      variants := [⟨"2022", "Explain paging"⟩, ⟨"2023", "What is paging?"⟩] },
    { representative := "Explain deadlock", priority := "High", count := 2,
      variants := [⟨"2021", "Explain deadlock"⟩, ⟨"2023", "What is a deadlock?"⟩] } ]

/-- The component after picking `samplePicked` and clicking the submit
button. -/
def sampleBusy : Sys :=
  Event.clickAnalyze.apply ((Event.pickFiles samplePicked).apply Sys.init)

/-- A rejected request whose body is `{"error": "bad file"}`. -/
def sampleBadFile : AxiosError :=
  { response := some { status := 400, data := obj [("error", str "bad file")] } }

/-- A rejected request whose body is `{"error": ""}`. -/
def sampleEmptyError : AxiosError :=
  { response := some { status := 400, data := obj [("error", str "")] } }

/-- A rejected request whose body is `{"error": {"msg": "x"}}`. -/
def sampleObjectError : AxiosError :=
  { response := some { status := 500, data := obj [("error", obj [("msg", str "x")])] } }

/-- A response body of a successful analysis, reduced to its counters. -/
def sampleBody : JsVal :=
  obj [("papers_analyzed", arr [str "a.pdf", str "b.pdf", str "c.pdf"]),
       ("total_questions_extracted", num 12), ("total_groups", num 4),
       ("ranked_questions", arr [])]

/-- The state after a successful analysis of `sampleThree`: the result is set
and the three files are still selected. -/
def sampleDone : State :=
  (handleAnalyze (fun _ => Outcome.resolved sampleBody) sampleThree).1

/-! ## Selection handlers -/

theorem pdf_filter_ne_nil {selectedFiles : List File}
    (h : ∃ f ∈ selectedFiles, f.type = "application/pdf") : selectedFiles.filter (fun f => f.type = "application/pdf") ≠ [] := by
  obtain ⟨f, hf, ht⟩ := h
  have hmem : f ∈ selectedFiles.filter (fun f => f.type = "application/pdf") := by
    simp [List.mem_filter, hf, ht]
  exact List.ne_nil_of_mem hmem

theorem pdf_filter_eq_nil {selectedFiles : List File}
    (h : ∀ f ∈ selectedFiles, f.type ≠ "application/pdf") : selectedFiles.filter (fun f => f.type = "application/pdf") = [] := by
  simp only [List.filter_eq_nil_iff, decide_eq_true_eq]
  exact h

/-- C2: when the picked list holds at least one PDF-typed file,
`handleFileChange` replaces the selection with exactly the PDF-typed files of
the picked list, in picked order (a sublist of it, every member PDF-typed,
every PDF-typed picked file a member), sets the error to `null`, and leaves
`loading`, `result` and `filter` as they were. -/
theorem handleFileChange_keeps_pdfs (selectedFiles : List File) (s : State)
    (h : ∃ f ∈ selectedFiles, f.type = "application/pdf") :
    (handleFileChange selectedFiles s).files
        = selectedFiles.filter (fun f => f.type = "application/pdf")
      ∧ List.Sublist (handleFileChange selectedFiles s).files selectedFiles
      ∧ (∀ f ∈ (handleFileChange selectedFiles s).files, f.type = "application/pdf")
      ∧ (∀ f ∈ selectedFiles, f.type = "application/pdf" →
          f ∈ (handleFileChange selectedFiles s).files)
      ∧ (handleFileChange selectedFiles s).error = JsVal.null
      ∧ (handleFileChange selectedFiles s).loading = s.loading
      ∧ (handleFileChange selectedFiles s).result = s.result
      ∧ (handleFileChange selectedFiles s).filter = s.filter := by
  have hne : (selectedFiles.filter (fun f => f.type = "application/pdf")).length ≠ 0 := by
    intro h0
    exact pdf_filter_ne_nil h (List.length_eq_zero.mp h0)
  have hfiles : (handleFileChange selectedFiles s).files
      = selectedFiles.filter (fun f => f.type = "application/pdf") := by
    simp only [handleFileChange, if_neg hne]
  refine ⟨hfiles, ?_, ?_, ?_, ?_, ?_, ?_, ?_⟩
  · rw [hfiles]; exact List.filter_sublist selectedFiles
  · intro f hf
    rw [hfiles, List.mem_filter] at hf
    simpa using hf.2
  · intro f hf ht
    rw [hfiles, List.mem_filter]
    exact ⟨hf, by simpa using ht⟩
  · simp only [handleFileChange, if_neg hne]
  · simp only [handleFileChange, if_neg hne]
  · simp only [handleFileChange, if_neg hne]
  · simp only [handleFileChange, if_neg hne]

theorem handleFileChange_keeps_pdfs_witness :
    (handleFileChange samplePicked sampleState).files
        = [ { name := "2021.pdf", type := "application/pdf", content := [2] },
            { name := "2022.pdf", type := "application/pdf", content := [3] } ]
      ∧ (handleFileChange samplePicked sampleState).error = JsVal.null :=
  ⟨(handleFileChange_keeps_pdfs samplePicked sampleState
      ⟨{ name := "2021.pdf", type := "application/pdf", content := [2] }, by decide, rfl⟩).1,
   (handleFileChange_keeps_pdfs samplePicked sampleState
      ⟨{ name := "2022.pdf", type := "application/pdf", content := [3] }, by decide, rfl⟩).2.2.2.2.1⟩

/-- C3: when no picked file is PDF-typed, `handleFileChange` sets the error to
"Please select only PDF files" and leaves the selection, `result`, `loading`
and `filter` as they were. -/
theorem handleFileChange_rejects_no_pdf (selectedFiles : List File) (s : State)
    (h : ∀ f ∈ selectedFiles, f.type ≠ "application/pdf") :
    (handleFileChange selectedFiles s).error = str "Please select only PDF files"
      ∧ (handleFileChange selectedFiles s).files = s.files
      ∧ (handleFileChange selectedFiles s).result = s.result
      ∧ (handleFileChange selectedFiles s).loading = s.loading
      ∧ (handleFileChange selectedFiles s).filter = s.filter := by
  have h0 : (selectedFiles.filter (fun f => f.type = "application/pdf")).length = 0 :=
    List.length_eq_zero.mpr (pdf_filter_eq_nil h)
  simp only [handleFileChange, if_pos h0, and_self]

theorem handleFileChange_rejects_no_pdf_witness :
    (handleFileChange sampleNoPdf sampleState).error = str "Please select only PDF files"
      ∧ (handleFileChange sampleNoPdf sampleState).files = sampleState.files
      ∧ (handleFileChange sampleNoPdf sampleState).result = sampleState.result
      ∧ (handleFileChange sampleNoPdf sampleState).loading = sampleState.loading
      ∧ (handleFileChange sampleNoPdf sampleState).filter = sampleState.filter :=
  handleFileChange_rejects_no_pdf sampleNoPdf sampleState (by decide)

/-! ## Removing a file -/

theorem filterWithIndexFrom_ne_of_lt {α : Type} (index : Nat) (xs : List α) :
    ∀ i, index < i → filterWithIndexFrom (fun _ j => j != index) i xs = xs := by
  induction xs with
  | nil => intro i _; rfl
  | cons x rest ih =>
    intro i hi
    have hne : (i != index) = true := by simp; omega
    simp only [filterWithIndexFrom, hne, if_true]
    rw [ih (i + 1) (by omega)]

theorem filterWithIndexFrom_ne_eq_eraseIdx {α : Type} (index : Nat) (xs : List α) :
    ∀ i, i ≤ index →
      filterWithIndexFrom (fun _ j => j != index) i xs = xs.eraseIdx (index - i) := by
  induction xs with
  | nil => intro i _; rfl
  | cons x rest ih =>
    intro i hi
    by_cases heq : i = index
    · subst heq
      simp only [filterWithIndexFrom, bne_self_eq_false, Bool.false_eq_true, if_false,
        Nat.sub_self, List.eraseIdx_cons_zero]
      exact filterWithIndexFrom_ne_of_lt i rest (i + 1) (by omega)
    · have hne : (i != index) = true := by simp [heq]
      have hsub : index - i = (index - (i + 1)) + 1 := by omega
      simp only [filterWithIndexFrom, hne, if_true]
      rw [ih (i + 1) (by omega), hsub, List.eraseIdx_cons_succ]

theorem removeFile_files_eq_eraseIdx (index : Nat) (s : State) :
    (removeFile index s).files = s.files.eraseIdx index := by
  simp only [removeFile, filterWithIndex]
  rw [filterWithIndexFrom_ne_eq_eraseIdx index s.files 0 (Nat.zero_le _), Nat.sub_zero]

/-- C4: for an index inside the selection, `removeFile` yields the elements
before that position followed by the elements after it (one element fewer);
for an index at or past the end the selection is unchanged. The cells other
than `files` are never touched. -/
theorem removeFile_spec (index : Nat) (s : State) :
    (index < s.files.length →
        (removeFile index s).files = s.files.take index ++ s.files.drop (index + 1)
          ∧ (removeFile index s).files.length + 1 = s.files.length)
      ∧ (s.files.length ≤ index → (removeFile index s).files = s.files)
      ∧ (removeFile index s).loading = s.loading
      ∧ (removeFile index s).result = s.result
      ∧ (removeFile index s).error = s.error
      ∧ (removeFile index s).filter = s.filter := by
  refine ⟨?_, ?_, rfl, rfl, rfl, rfl⟩
  · intro h
    rw [removeFile_files_eq_eraseIdx]
    refine ⟨List.eraseIdx_eq_take_drop_succ _ _, ?_⟩
    rw [List.length_eraseIdx, if_pos h]
    omega
  · intro h
    rw [removeFile_files_eq_eraseIdx]
    exact List.eraseIdx_of_length_le h

/-- The example of the specification for `removeFile`: removing index 1 of
`[a, b, c]` gives `[a, c]`. -/
theorem removeFile_middle_example (a b c : File) (s : State) :
    (removeFile 1 { s with files := [a, b, c] }).files = [a, c] := by
  rfl

theorem removeFile_spec_witness :
    (1 < sampleThree.files.length
        ∧ (removeFile 1 sampleThree).files
            = sampleThree.files.take 1 ++ sampleThree.files.drop (1 + 1)
        ∧ (removeFile 1 sampleThree).files.length + 1 = sampleThree.files.length)
      ∧ (sampleThree.files.length ≤ 7 ∧ (removeFile 7 sampleThree).files = sampleThree.files) :=
  ⟨⟨by decide, (removeFile_spec 1 sampleThree).1 (by decide)⟩,
   ⟨by decide, (removeFile_spec 7 sampleThree).2.1 (by decide)⟩⟩

/-! ## The question list -/

theorem mapWithIndexFrom_getElem? {α β : Type} (f : α → Nat → β) (xs : List α) :
    ∀ i k, (mapWithIndexFrom f i xs)[k]? = (xs[k]?).map (fun x => f x (i + k)) := by
  induction xs with
  | nil => intro i k; simp [mapWithIndexFrom]
  | cons x rest ih =>
    intro i k
    cases k with
    | zero => simp [mapWithIndexFrom]
    | succ k =>
      simp only [mapWithIndexFrom, List.getElem?_cons_succ, ih]
      have : i + 1 + k = i + (k + 1) := by omega
      rw [this]

theorem mapWithIndexFrom_length {α β : Type} (f : α → Nat → β) (xs : List α) :
    ∀ i, (mapWithIndexFrom f i xs).length = xs.length := by
  induction xs with
  | nil => intro i; rfl
  | cons x rest ih => intro i; simp [mapWithIndexFrom, ih]

theorem cards_question (xs : List RankedQuestion) :
    ∀ i, (mapWithIndexFrom
        (fun question index => ({ key := index, question := question, rank := index + 1 } : CardProps))
        i xs).map (fun c => c.question) = xs := by
  induction xs with
  | nil => intro i; rfl
  | cons x rest ih => intro i; simp [mapWithIndexFrom, ih]

theorem cards_rank (xs : List RankedQuestion) :
    ∀ i, (mapWithIndexFrom
        (fun question index => ({ key := index, question := question, rank := index + 1 } : CardProps))
        i xs).map (fun c => c.rank) = List.range' (i + 1) xs.length := by
  induction xs with
  | nil => intro i; rfl
  | cons x rest ih => intro i; simp [mapWithIndexFrom, ih, List.range'_succ]

theorem questionList_of_ne_all (qs : List RankedQuestion) (f : String) (hf : f ≠ "All") :
    questionList qs f
      = mapWithIndex (fun question index => { key := index, question := question, rank := index + 1 })
          (qs.filter (fun q => q.priority = f)) := by
  simp [questionList, hf]

theorem questionList_all (qs : List RankedQuestion) :
    questionList qs "All"
      = mapWithIndex (fun question index => { key := index, question := question, rank := index + 1 })
          qs := by
  simp [questionList]

/-- C1: for a priority filter `f` among `High`, `Medium`, `Low`, the cards of
the question list carry exactly the entries of `qs` whose priority is `f`, in
their order in `qs`; the card at position `k` (from 0) carries the `k`-th
matching entry with rank `k + 1`, so the ranks are `1, ..., m` for `m`
matching entries. For the filter `All` the cards carry all of `qs` in order
with ranks `1, ..., N`. -/
theorem questionList_spec (qs : List RankedQuestion) (f : String)
    (hf : f = "High" ∨ f = "Medium" ∨ f = "Low") :
    (questionList qs f).map (fun c => c.question) = qs.filter (fun q => q.priority = f)
      ∧ (questionList qs f).map (fun c => c.rank)
          = List.range' 1 (qs.filter (fun q => q.priority = f)).length
      ∧ (∀ k : Nat, (questionList qs f)[k]?
          = ((qs.filter (fun q => q.priority = f))[k]?).map
              (fun q => CardProps.mk k q (k + 1)))
      ∧ (questionList qs "All").map (fun c => c.question) = qs
      ∧ (questionList qs "All").map (fun c => c.rank) = List.range' 1 qs.length
      ∧ (∀ k : Nat, (questionList qs "All")[k]?
          = (qs[k]?).map (fun q => CardProps.mk k q (k + 1))) := by
  have hne : f ≠ "All" := by
    rcases hf with h | h | h <;> subst h <;> decide
  rw [questionList_of_ne_all qs f hne, questionList_all]
  refine ⟨cards_question _ 0, cards_rank _ 0, ?_, cards_question _ 0, cards_rank _ 0, ?_⟩
  · intro k
    simp only [mapWithIndex, mapWithIndexFrom_getElem?, Nat.zero_add]
  · intro k
    simp only [mapWithIndex, mapWithIndexFrom_getElem?, Nat.zero_add]

theorem questionList_spec_witness :
    (questionList sampleRanked "High").map (fun c => c.question)
        = sampleRanked.filter (fun q => q.priority = "High")
      ∧ (questionList sampleRanked "High").map (fun c => c.rank) = [1, 2]
      ∧ (questionList sampleRanked "All").map (fun c => c.question) = sampleRanked
      ∧ (questionList sampleRanked "All").map (fun c => c.rank) = [1, 2, 3, 4] :=
  ⟨(questionList_spec sampleRanked "High" (Or.inl rfl)).1,
   (questionList_spec sampleRanked "High" (Or.inl rfl)).2.1,
   (questionList_spec sampleRanked "High" (Or.inl rfl)).2.2.2.1,
   (questionList_spec sampleRanked "High" (Or.inl rfl)).2.2.2.2.1⟩

/-- With the filter `High` the sample list shows its first and fourth entries,
with ranks 1 and 2. -/
theorem questionList_high_example :
    (questionList sampleRanked "High").map (fun c => (c.question.representative, c.rank))
      = [("Define entropy", 1), ("Explain deadlock", 2)] := by
  decide

/-! ## One request at a time -/

/-- In a reachable state either nothing is in flight and `loading` is false,
or exactly one request is in flight and `loading` is true. -/
theorem reachable_outstanding (sys : Sys) (h : Reachable sys) :
    (sys.ui.loading = false ∧ sys.outstanding = [])
      ∨ (sys.ui.loading = true ∧ ∃ req, sys.outstanding = [req]) := by
  induction h with
  | init => left; exact ⟨rfl, rfl⟩
  | step e sys _ can ih =>
    cases e with
    | pickFiles selectedFiles =>
      have hl : (handleFileChange selectedFiles sys.ui).loading = sys.ui.loading := by
        simp only [handleFileChange]; split <;> rfl
      simpa only [Event.apply, hl] using ih
    | clickRemove index => simpa only [Event.apply, removeFile] using ih
    | clickFilter priority => simpa only [Event.apply, setFilter] using ih
    | clickReset => simpa only [Event.apply, handleReset] using ih
    | clickAnalyze =>
      simp only [Event.enabled, submitDisabled, Bool.and_eq_true, Bool.not_eq_true',
        Bool.or_eq_false_iff, beq_eq_false_iff_ne, ne_eq] at can
      obtain ⟨_, hload, hfiles⟩ := can
      rcases ih with ⟨_, hout⟩ | ⟨hl, _⟩
      · right
        simp only [Event.apply, handleAnalyzeBegin, if_neg hfiles, hout, Option.toList,
          List.nil_append, true_and]
        exact ⟨_, rfl⟩
      · rw [hl] at hload; exact absurd hload (by decide)
    | settle i o =>
      simp only [Event.enabled, decide_eq_true_eq] at can
      rcases ih with ⟨_, hout⟩ | ⟨_, req, hout⟩
      · rw [hout] at can; exact absurd can (Nat.not_lt_zero _)
      · left
        rw [hout] at can
        have hi : i = 0 := by simpa using can
        subst hi
        refine ⟨by simp only [Event.apply, handleAnalyzeSettle], ?_⟩
        simp only [Event.apply, hout, List.eraseIdx_cons_zero]

/-- C8: in every reachable state at most one analysis request is outstanding,
a request is outstanding exactly when `loading` is true, and while `loading`
is true the submit button is disabled, so the click that would issue a second
request is not possible. -/
theorem one_request_at_a_time (sys : Sys) (h : Reachable sys) :
    sys.outstanding.length ≤ 1
      ∧ (sys.outstanding.length = 1 ↔ sys.ui.loading = true)
      ∧ (sys.ui.loading = true → submitDisabled sys.ui = true)
      ∧ (sys.ui.loading = true → Event.clickAnalyze.enabled sys = false) := by
  have hdis : sys.ui.loading = true → submitDisabled sys.ui = true := by
    intro hl; simp [submitDisabled, hl]
  refine ⟨?_, ?_, hdis, ?_⟩
  · rcases reachable_outstanding sys h with ⟨_, hout⟩ | ⟨_, req, hout⟩ <;> simp [hout]
  · rcases reachable_outstanding sys h with ⟨hl, hout⟩ | ⟨hl, req, hout⟩ <;> simp [hout, hl]
  · intro hl
    simp [Event.enabled, hdis hl]

theorem one_request_at_a_time_witness :
    sampleBusy.outstanding.length ≤ 1
      ∧ (sampleBusy.outstanding.length = 1 ↔ sampleBusy.ui.loading = true)
      ∧ submitDisabled sampleBusy.ui = true
      ∧ Event.clickAnalyze.enabled sampleBusy = false :=
  ⟨(one_request_at_a_time sampleBusy
      (Reachable.step Event.clickAnalyze _
        (Reachable.step (Event.pickFiles samplePicked) _ Reachable.init (by decide))
        (by decide))).1,
   (one_request_at_a_time sampleBusy
      (Reachable.step Event.clickAnalyze _
        (Reachable.step (Event.pickFiles samplePicked) _ Reachable.init (by decide))
        (by decide))).2.1,
   (one_request_at_a_time sampleBusy
      (Reachable.step Event.clickAnalyze _
        (Reachable.step (Event.pickFiles samplePicked) _ Reachable.init (by decide))
        (by decide))).2.2.1 rfl,
   (one_request_at_a_time sampleBusy
      (Reachable.step Event.clickAnalyze _
        (Reachable.step (Event.pickFiles samplePicked) _ Reachable.init (by decide))
        (by decide))).2.2.2 rfl⟩

/-- After the click one request is in flight, `loading` is true and the button
is disabled. -/
theorem sampleBusy_example :
    sampleBusy.outstanding.length = 1 ∧ sampleBusy.ui.loading = true
      ∧ Event.clickAnalyze.enabled sampleBusy = false := by
  decide

/-! ## Submitting -/

theorem handleAnalyze_of_files_ne_nil (post : Request → Outcome) (s : State)
    (hs : s.files ≠ []) :
    handleAnalyze post s
      = (handleAnalyzeSettle
          (post { url := API_URL, formData := s.files.map (fun file => ("papers", file)) })
          { s with loading := true, error := JsVal.null },
         [{ url := API_URL, formData := s.files.map (fun file => ("papers", file)) }]) := by
  have h0 : ¬ s.files.length = 0 := fun h => hs (List.length_eq_zero.mp h)
  simp only [handleAnalyze, handleAnalyzeBegin, if_neg h0]

theorem lookupProp_of_absent (key : String) (props : List (String × JsVal))
    (h : ∀ kv ∈ props, kv.1 ≠ key) : lookupProp key props = JsVal.undefined := by
  induction props with
  | nil => rfl
  | cons kv rest ih =>
    obtain ⟨k, v⟩ := kv
    have hk : k ≠ key := h (k, v) (List.mem_cons_self _ _)
    simp only [lookupProp, if_neg hk]
    exact ih (fun kv hkv => h kv (List.mem_cons_of_mem _ hkv))

theorem orElse_truthy (a : JsVal) (m : String) (hm : m ≠ "") :
    (orElse a (str m)).truthy = true := by
  unfold orElse
  split
  · assumption
  · simp [truthy, hm]

theorem genericFailure_ne_empty : genericFailure ≠ "" := by decide

/-- C6: with an empty selection `handleAnalyze` sets the error to "Please
upload at least one PDF file", issues no request (neither the whole run nor
its part before the `await`), and leaves `files`, `result`, `loading` and
`filter` as they were. -/
theorem handleAnalyze_empty_selection (post : Request → Outcome) (s : State)
    (hs : s.files = []) :
    (handleAnalyze post s).1.error = str "Please upload at least one PDF file"
      ∧ (handleAnalyze post s).2 = []
      ∧ (handleAnalyzeBegin s).2 = none
      ∧ (handleAnalyzeBegin s).1 = (handleAnalyze post s).1
      ∧ (handleAnalyze post s).1.files = s.files
      ∧ (handleAnalyze post s).1.result = s.result
      ∧ (handleAnalyze post s).1.loading = s.loading
      ∧ (handleAnalyze post s).1.filter = s.filter := by
  have h0 : s.files.length = 0 := by rw [hs]; rfl
  simp only [handleAnalyze, handleAnalyzeBegin, if_pos h0, and_self]

theorem handleAnalyze_empty_selection_witness :
    State.init.files = []
      ∧ (handleAnalyze (fun _ => Outcome.resolved sampleBody) State.init).1.error
          = str "Please upload at least one PDF file"
      ∧ (handleAnalyze (fun _ => Outcome.resolved sampleBody) State.init).2 = []
      ∧ (handleAnalyze (fun _ => Outcome.resolved sampleBody) State.init).1.loading = false :=
  ⟨rfl,
   (handleAnalyze_empty_selection (fun _ => Outcome.resolved sampleBody) State.init rfl).1,
   (handleAnalyze_empty_selection (fun _ => Outcome.resolved sampleBody) State.init rfl).2.1,
   (handleAnalyze_empty_selection (fun _ => Outcome.resolved sampleBody) State.init rfl).2.2.2.2.2.2.1⟩

/-- C9: `handleReset` leaves an empty selection, a `null` result and a `null`
error, so the upload section is rendered, with no file listed and no error
element; `loading` and `filter` are not touched. -/
theorem handleReset_spec (s : State) :
    (handleReset s).files = []
      ∧ (handleReset s).result = JsVal.null
      ∧ (handleReset s).error = JsVal.null
      ∧ showsUploadView (handleReset s) = true
      ∧ errorElement (handleReset s) = some Child.nothing
      ∧ (handleReset s).loading = s.loading
      ∧ (handleReset s).filter = s.filter :=
  ⟨rfl, rfl, rfl, rfl, rfl, rfl, rfl⟩

theorem handleAnalyze_rejected_error (s : State) (hs : s.files ≠ []) (err : AxiosError) :
    (handleAnalyze (fun _ => Outcome.rejected err) s).1.error
      = orElse (errorField err) (str genericFailure) := by
  rw [handleAnalyze_of_files_ne_nil _ s hs]
  rfl

/-- C5 as stated fails for the empty string: a failure whose body is
`{"error": ""}` carries the `error` string `""`, and the surfaced error is the
generic message, not `""`. -/
theorem failure_empty_error_counterexample :
    sampleThree.files ≠ []
      ∧ errorField sampleEmptyError = str ""
      ∧ (handleAnalyze (fun _ => Outcome.rejected sampleEmptyError) sampleThree).1.error
          = str "Failed to analyze papers. Is Django running?"
      ∧ (handleAnalyze (fun _ => Outcome.rejected sampleEmptyError) sampleThree).1.error
          ≠ str "" := by
  refine ⟨by decide, rfl, rfl, ?_⟩
  intro h
  have h2 : (handleAnalyze (fun _ => Outcome.rejected sampleEmptyError) sampleThree).1.error
      = str "Failed to analyze papers. Is Django running?" := rfl
  rw [h2] at h
  injection h with h
  exact absurd h (by decide)

/-- C5, amended: when the analysis request fails, the error surfaced by
`handleAnalyze` is the `error` string of the response body when that string is
not empty, and the generic message "Failed to analyze papers. Is Django
running?" when that string is empty, when there is no response, when the body
is not an object (no body), or when the body has no `error` field. -/
theorem handleAnalyze_failure_message (s : State) (hs : s.files ≠ []) (err : AxiosError) :
    (∀ (status : Nat) (props : List (String × JsVal)) (m : String),
        err.response = some { status := status, data := obj props } →
        lookupProp "error" props = str m → m ≠ "" →
        (handleAnalyze (fun _ => Outcome.rejected err) s).1.error = str m)
      ∧ (∀ (status : Nat) (props : List (String × JsVal)),
        err.response = some { status := status, data := obj props } →
        lookupProp "error" props = str "" →
        (handleAnalyze (fun _ => Outcome.rejected err) s).1.error = str genericFailure)
      ∧ (err.response = none →
        (handleAnalyze (fun _ => Outcome.rejected err) s).1.error = str genericFailure)
      ∧ (∀ (status : Nat) (data : JsVal),
        err.response = some { status := status, data := data } →
        (∀ props, data ≠ obj props) →
        (handleAnalyze (fun _ => Outcome.rejected err) s).1.error = str genericFailure)
      ∧ (∀ (status : Nat) (props : List (String × JsVal)),
        err.response = some { status := status, data := obj props } →
        (∀ kv ∈ props, kv.1 ≠ "error") →
        (handleAnalyze (fun _ => Outcome.rejected err) s).1.error = str genericFailure)
      ∧ genericFailure = "Failed to analyze papers. Is Django running?" := by
  rw [handleAnalyze_rejected_error s hs err]
  refine ⟨?_, ?_, ?_, ?_, ?_, rfl⟩
  · intro status props m hr hl hm
    simp [errorField, hr, optProp, hl, orElse, truthy, hm]
  · intro status props hr hl
    simp [errorField, hr, optProp, hl, orElse, truthy]
  · intro hr
    simp [errorField, hr, orElse, truthy]
  · intro status data hr hd
    have hu : optProp data "error" = JsVal.undefined := by
      cases data with
      | obj props => exact absurd rfl (hd props)
      | _ => rfl
    simp [errorField, hr, hu, orElse, truthy]
  · intro status props hr hk
    simp [errorField, hr, optProp, lookupProp_of_absent "error" props hk, orElse, truthy]

theorem handleAnalyze_failure_message_witness :
    sampleThree.files ≠ []
      ∧ (handleAnalyze (fun _ => Outcome.rejected sampleBadFile) sampleThree).1.error
          = str "bad file"
      ∧ (handleAnalyze (fun _ => Outcome.rejected { response := none }) sampleThree).1.error
          = str genericFailure :=
  ⟨by decide,
   (handleAnalyze_failure_message sampleThree (by decide) sampleBadFile).1
      400 [("error", str "bad file")] "bad file" rfl rfl (by decide),
   (handleAnalyze_failure_message sampleThree (by decide) { response := none }).2.2.1 rfl⟩

/-- C7 as stated fails at two inputs. For the failure body
`{"error": {"msg": "x"}}` the error cell holds that object after the run: it
is not a non-empty message, React throws on it as a child, and neither the
error element nor the submit button is rendered. And from a state with a
non-empty selection whose result is already set, the result is unchanged but
not `null`, and the upload view is not shown. -/
theorem failure_object_error_counterexample :
    (sampleThree.files ≠ []
        ∧ sampleThree.result = JsVal.null
        ∧ (handleAnalyze (fun _ => Outcome.rejected sampleObjectError) sampleThree).1.error
            = obj [("msg", str "x")]
        ∧ isNonEmptyString
            (handleAnalyze (fun _ => Outcome.rejected sampleObjectError) sampleThree).1.error
            = false
        ∧ errorElement (handleAnalyze (fun _ => Outcome.rejected sampleObjectError) sampleThree).1
            = none
        ∧ uploadSection (handleAnalyze (fun _ => Outcome.rejected sampleObjectError) sampleThree).1
            = none)
      ∧ (sampleDone.files ≠ []
        ∧ (handleAnalyze (fun _ => Outcome.rejected sampleBadFile) sampleDone).1.result
            = sampleBody
        ∧ showsUploadView (handleAnalyze (fun _ => Outcome.rejected sampleBadFile) sampleDone).1
            = false) :=
  ⟨⟨by decide, rfl, rfl, rfl, rfl, rfl⟩, ⟨by decide, rfl, rfl⟩⟩

theorem uploadSection_of_message (s : State) (m : String) (hm : m ≠ "")
    (herr : s.error = str m) :
    errorElement s = some (Child.element m)
      ∧ uploadSection s
          = some { listedFiles := s.files.map (fun file => file.name),
                   error := Child.element m,
                   submitDisabled := submitDisabled s, loadingNote := s.loading } := by
  have he : errorElement s = some (Child.element m) := by
    simp [errorElement, herr, truthy, hm, childText]
  exact ⟨he, by simp only [uploadSection, he]⟩

/-- C7, amended: for a non-empty selection and every way the request can
fail, after the run of `handleAnalyze` one request was issued, `loading` is
false, the selection and the result are as before the submit (if the result
was `null` it still is and the upload view is shown), and the error is a
non-null, truthy value: the `error` field of the failure body when that is
truthy, the generic message otherwise. When that field is a non-empty string
`m`, the error is `m`; when it is absent or falsy (the empty string included),
the error is the generic message; in both cases the upload section renders
with the selected files listed, the error element showing that message, and
the submit button not disabled. -/
theorem handleAnalyze_failure_recovers (s : State) (hs : s.files ≠ []) (err : AxiosError) :
    (handleAnalyze (fun _ => Outcome.rejected err) s).2.length = 1
      ∧ (handleAnalyze (fun _ => Outcome.rejected err) s).1.loading = false
      ∧ (handleAnalyze (fun _ => Outcome.rejected err) s).1.files = s.files
      ∧ (handleAnalyze (fun _ => Outcome.rejected err) s).1.result = s.result
      ∧ (s.result = JsVal.null →
          (handleAnalyze (fun _ => Outcome.rejected err) s).1.result = JsVal.null
            ∧ showsUploadView (handleAnalyze (fun _ => Outcome.rejected err) s).1 = true)
      ∧ (handleAnalyze (fun _ => Outcome.rejected err) s).1.error
          = orElse (errorField err) (str genericFailure)
      ∧ (handleAnalyze (fun _ => Outcome.rejected err) s).1.error.truthy = true
      ∧ (handleAnalyze (fun _ => Outcome.rejected err) s).1.error ≠ JsVal.null
      ∧ (∀ m : String, errorField err = str m → m ≠ "" →
          (handleAnalyze (fun _ => Outcome.rejected err) s).1.error = str m
            ∧ errorElement (handleAnalyze (fun _ => Outcome.rejected err) s).1
                = some (Child.element m)
            ∧ uploadSection (handleAnalyze (fun _ => Outcome.rejected err) s).1
                = some { listedFiles := s.files.map (fun file => file.name),
                         error := Child.element m,
                         submitDisabled := false, loadingNote := false })
      ∧ ((errorField err).truthy = false →
          (handleAnalyze (fun _ => Outcome.rejected err) s).1.error = str genericFailure
            ∧ errorElement (handleAnalyze (fun _ => Outcome.rejected err) s).1
                = some (Child.element genericFailure)
            ∧ uploadSection (handleAnalyze (fun _ => Outcome.rejected err) s).1
                = some { listedFiles := s.files.map (fun file => file.name),
                         error := Child.element genericFailure,
                         submitDisabled := false, loadingNote := false }) := by
  have herr := handleAnalyze_rejected_error s hs err
  have htruthy : (handleAnalyze (fun _ => Outcome.rejected err) s).1.error.truthy = true := by
    rw [herr]; exact orElse_truthy _ _ genericFailure_ne_empty
  have hfiles : (handleAnalyze (fun _ => Outcome.rejected err) s).1.files = s.files := by
    rw [handleAnalyze_of_files_ne_nil _ s hs]; rfl
  have hload : (handleAnalyze (fun _ => Outcome.rejected err) s).1.loading = false := by
    rw [handleAnalyze_of_files_ne_nil _ s hs]; rfl
  have hres : (handleAnalyze (fun _ => Outcome.rejected err) s).1.result = s.result := by
    rw [handleAnalyze_of_files_ne_nil _ s hs]; rfl
  have hdis : submitDisabled (handleAnalyze (fun _ => Outcome.rejected err) s).1 = false := by
    simp [submitDisabled, hload, hfiles, hs]
  have hview : ∀ m : String, m ≠ "" →
      (handleAnalyze (fun _ => Outcome.rejected err) s).1.error = str m →
      errorElement (handleAnalyze (fun _ => Outcome.rejected err) s).1
          = some (Child.element m)
        ∧ uploadSection (handleAnalyze (fun _ => Outcome.rejected err) s).1
          = some { listedFiles := s.files.map (fun file => file.name),
                   error := Child.element m,
                   submitDisabled := false, loadingNote := false } := by
    intro m hm hstored
    have h := uploadSection_of_message _ m hm hstored
    rw [hfiles, hload, hdis] at h
    exact h
  refine ⟨?_, hload, hfiles, hres, ?_, herr, htruthy, ?_, ?_, ?_⟩
  · rw [handleAnalyze_of_files_ne_nil _ s hs]; rfl
  · intro hnull
    refine ⟨by rw [hres, hnull], ?_⟩
    simp only [showsUploadView, hres, hnull]
    rfl
  · intro hnull
    rw [hnull] at htruthy
    exact absurd htruthy (by decide)
  · intro m hfield hm
    have hstored : (handleAnalyze (fun _ => Outcome.rejected err) s).1.error = str m := by
      rw [herr, hfield]; simp [orElse, truthy, hm]
    exact ⟨hstored, hview m hm hstored⟩
  · intro hfalsy
    have hstored : (handleAnalyze (fun _ => Outcome.rejected err) s).1.error
        = str genericFailure := by
      rw [herr]; simp [orElse, hfalsy]
    exact ⟨hstored, hview genericFailure genericFailure_ne_empty hstored⟩

theorem handleAnalyze_failure_recovers_witness :
    sampleThree.files ≠ []
      ∧ (handleAnalyze (fun _ => Outcome.rejected sampleBadFile) sampleThree).1.loading = false
      ∧ (handleAnalyze (fun _ => Outcome.rejected sampleBadFile) sampleThree).1.files
          = sampleThree.files
      ∧ (handleAnalyze (fun _ => Outcome.rejected sampleBadFile) sampleThree).1.result
          = JsVal.null
      ∧ (handleAnalyze (fun _ => Outcome.rejected sampleBadFile) sampleThree).1.error
          = str "bad file"
      ∧ uploadSection (handleAnalyze (fun _ => Outcome.rejected sampleBadFile) sampleThree).1
          = some { listedFiles := ["a.pdf", "b.pdf", "c.pdf"],
                   error := Child.element "bad file",
                   submitDisabled := false, loadingNote := false } :=
  ⟨by decide,
   (handleAnalyze_failure_recovers sampleThree (by decide) sampleBadFile).2.1,
   (handleAnalyze_failure_recovers sampleThree (by decide) sampleBadFile).2.2.1,
   ((handleAnalyze_failure_recovers sampleThree (by decide) sampleBadFile).2.2.2.2.1 rfl).1,
   ((handleAnalyze_failure_recovers sampleThree (by decide) sampleBadFile).2.2.2.2.2.2.2.2.1
      "bad file" rfl (by decide)).1,
   ((handleAnalyze_failure_recovers sampleThree (by decide) sampleBadFile).2.2.2.2.2.2.2.2.1
      "bad file" rfl (by decide)).2.2⟩

/-- C10 as stated fails: after a successful analysis of a three-file selection
the selection still holds the three files. -/
theorem success_keeps_files_counterexample :
    sampleThree.files ≠ []
      ∧ (handleAnalyze (fun _ => Outcome.resolved sampleBody) sampleThree).1.files
          = sampleThree.files
      ∧ (handleAnalyze (fun _ => Outcome.resolved sampleBody) sampleThree).1.files ≠ [] :=
  ⟨by decide, rfl, by decide⟩

/-- C10, amended: for a non-empty selection, when the request succeeds
`handleAnalyze` has issued one request that carries every selected file under
the field `papers`, stores the response body as the result, leaves `loading`
false and the error `null`, and leaves the selection unchanged. -/
theorem handleAnalyze_success (s : State) (hs : s.files ≠ []) (data : JsVal) :
    (handleAnalyze (fun _ => Outcome.resolved data) s).2
        = [{ url := API_URL, formData := s.files.map (fun file => ("papers", file)) }]
      ∧ (handleAnalyze (fun _ => Outcome.resolved data) s).1.result = data
      ∧ (handleAnalyze (fun _ => Outcome.resolved data) s).1.loading = false
      ∧ (handleAnalyze (fun _ => Outcome.resolved data) s).1.error = JsVal.null
      ∧ (handleAnalyze (fun _ => Outcome.resolved data) s).1.files = s.files
      ∧ (handleAnalyze (fun _ => Outcome.resolved data) s).1.filter = s.filter := by
  rw [handleAnalyze_of_files_ne_nil _ s hs]
  exact ⟨rfl, rfl, rfl, rfl, rfl, rfl⟩

theorem handleAnalyze_success_witness :
    sampleThree.files ≠ []
      ∧ (handleAnalyze (fun _ => Outcome.resolved sampleBody) sampleThree).1.result = sampleBody
      ∧ (handleAnalyze (fun _ => Outcome.resolved sampleBody) sampleThree).1.loading = false
      ∧ (handleAnalyze (fun _ => Outcome.resolved sampleBody) sampleThree).1.files
          = sampleThree.files :=
  ⟨by decide,
   (handleAnalyze_success sampleThree (by decide) sampleBody).2.1,
   (handleAnalyze_success sampleThree (by decide) sampleBody).2.2.1,
   (handleAnalyze_success sampleThree (by decide) sampleBody).2.2.2.2.1⟩

end PYQ
